import Mathlib

/-!
Verification of the signal-generation core of the `aish_bot` repository.

The Python sources (`utils/indicators.py`, `utils/sr_levels.py`,
`utils/orderbook.py`, `strategies/{btc,eth,sol}_strategy.py`) are shallowly
embedded below over exact rational arithmetic (`ℚ` in place of IEEE floats).
Pandas/NumPy missing values (`NaN`) are modelled by `Option ℚ` (`none` = NaN);
a price/volume series coming from parsed candles is NaN-free and is modelled
as `List ℚ`.  Square roots (pandas `std`, `np.std`) are irrational in general,
so the functions that need one are parametrised by an abstract
`sqrtQ : ℚ → ℚ`; every property proved below holds for all such functions.
Python's `round` (round-half-to-even) is modelled exactly by `pyRound`.
-/

/-- Round-half-to-even on ℚ, the semantics of Python's built-in `round`
restricted to one argument (result as an integer). -/
def rhe (q : ℚ) : ℤ :=
  if q - ⌊q⌋ < 1/2 then ⌊q⌋
  else if 1/2 < q - ⌊q⌋ then ⌊q⌋ + 1
  else if Even ⌊q⌋ then ⌊q⌋ else ⌊q⌋ + 1

/-- Python's `round(q, ndigits)` over exact rationals. -/
def pyRound (ndigits : ℕ) (q : ℚ) : ℚ :=
  ((rhe (q * 10 ^ ndigits) : ℚ)) / 10 ^ ndigits

/-- A pandas series cell: `none` models NaN. -/
abbrev Cell := Option ℚ

/-- A pandas series. -/
abbrev Series := List Cell

/-- Wrap a NaN-free float list as a series (`pd.Series(data)`). -/
def lift (xs : List ℚ) : Series := xs.map some

/-- NaN-propagating binary operation on cells. -/
def cell2 (f : ℚ → ℚ → ℚ) : Cell → Cell → Cell
  | some a, some b => some (f a b)
  | _, _ => none

/-- Elementwise NaN-propagating binary operation on series (pandas aligned
arithmetic for series of equal length). -/
def zipO (f : ℚ → ℚ → ℚ) (xs ys : Series) : Series :=
  List.zipWith (cell2 f) xs ys

/-- `Series.diff()`: first cell NaN, then consecutive differences. -/
def seriesDiff (xs : Series) : Series :=
  match xs with
  | [] => []
  | _ :: t => none :: List.zipWith (cell2 (fun a b => b - a)) xs t

/-- The length-`w` window of positions ending at index `i` (all cells,
including NaNs). -/
def owindow (w : ℕ) (xs : Series) (i : ℕ) : Series :=
  (xs.take (i + 1)).drop (i + 1 - w)

/-- `Series.rolling(window=w).f()` with the pandas default
`min_periods = w`: the result at `i` is NaN unless the window holds `w`
non-NaN observations, and otherwise applies `f` to them. -/
def rollingOp (f : List ℚ → ℚ) (w : ℕ) (xs : Series) : Series :=
  (List.range xs.length).map (fun i =>
    let win := owindow w xs i
    if i + 1 < w ∨ win.any (fun o => o.isNone) then none
    else some (f win.reduceOption))

/-- Arithmetic mean of a float list (callers guarantee nonempty windows). -/
def meanFn (l : List ℚ) : ℚ := l.sum / l.length

/-- Minimum of a float list (0 on the empty list, unreachable in use). -/
def minFn (l : List ℚ) : ℚ :=
  match l with
  | [] => 0
  | h :: t => t.foldl min h

/-- Maximum of a float list (0 on the empty list, unreachable in use). -/
def maxFn (l : List ℚ) : ℚ :=
  match l with
  | [] => 0
  | h :: t => t.foldl max h

/-- Sample variance (`ddof=1`, as in `Series.std` squared); callers guard
window size ≥ 2. -/
def sampleVar (l : List ℚ) : ℚ :=
  (l.map (fun x => (x - meanFn l) ^ 2)).sum / ((l.length : ℚ) - 1)

/-- Population variance (`ddof=0`, as in `np.std` squared). -/
def popVar (l : List ℚ) : ℚ :=
  (l.map (fun x => (x - meanFn l) ^ 2)).sum / (l.length : ℚ)

/-- `Series.fillna(d)`. -/
def fillna (d : ℚ) (xs : Series) : Series :=
  xs.map (fun o => some (o.getD d))

/-- `Series.fillna(method='bfill')`: each NaN takes the next non-NaN value
at or after its position (NaN if none exists). -/
def bfill (xs : Series) : Series :=
  (List.range xs.length).map (fun i => ((xs.drop i).filterMap id).head?)

/-- `Series.ewm(span, adjust=False).mean()` tail recursion:
`y_i = (1-α)·y_(i-1) + α·x_i`. -/
def ewmAFgo (α y : ℚ) : List ℚ → List ℚ
  | [] => []
  | x :: xs =>
    let y2 := (1 - α) * y + α * x
    y2 :: ewmAFgo α y2 xs

/-- `Series.ewm(span, adjust=False).mean()` over a NaN-free series, seeded by
the first value. -/
def ewmAF (α : ℚ) : List ℚ → List ℚ
  | [] => []
  | x :: xs => x :: ewmAFgo α x xs

/-- `Series.ewm(span, adjust=True).mean()` (the pandas default used in
`macd`): weighted average with weights `(1-α)^(i-j)`. -/
def ewmAT (α : ℚ) (xs : List ℚ) : List ℚ :=
  (List.range xs.length).map (fun i =>
    let pref := xs.take (i + 1)
    let ws := (List.range (i + 1)).map (fun j => (1 - α) ^ (i - j))
    (List.zipWith (· * ·) ws pref).sum / ws.sum)

/-- The ewm smoothing factor for `span=s`: `α = 2/(s+1)`. -/
def spanAlpha (s : ℕ) : ℚ := 2 / ((s : ℚ) + 1)

/-- `xs[-1]` under a nonemptiness guarantee (0 for the empty list). -/
def lastD (l : List ℚ) : ℚ := l.getLast?.getD 0

/-- `xs[-k]` under a length guarantee (0 when out of range). -/
def nthFromEnd (l : List ℚ) (k : ℕ) : ℚ := l.getD (l.length - k) 0

/-- Last cell of a series (NaN for the empty series). -/
def lastO (l : Series) : Cell := l.getLast?.getD none

/-- `safe_value(value, default)` of the strategy classes: replace
None/NaN by the default. -/
def safe_value (v : Cell) (d : ℚ) : ℚ := v.getD d

namespace TechnicalIndicators

/-- `TechnicalIndicators.ema(data, period)` (`utils/indicators.py:19-31`).
`period = 0` makes `ewm(span=0)` raise, and the except-branch returns
`[data[-1]] * len(data)` (or `[]` on empty input); otherwise input shorter
than the period yields the all-NaN sentinel, and the main path is
`ewm(span=period, adjust=False).mean()`. -/
def ema (data : List ℚ) (period : ℕ) : Series :=
  if period = 0 then
    match data with
    | [] => []
    | _ :: _ => List.replicate data.length (some (lastD data))
  else if data.length < period then List.replicate data.length none
  else lift (ewmAF (spanAlpha period) data)

/-- `TechnicalIndicators.rsi(data, period)` (`utils/indicators.py:33-55`).
`period = 0` makes `rolling(0)` raise and the except-branch returns the
all-50 list, which coincides with the short-input branch.  In the main path
`loss.replace(0, np.inf)` turns a zero average loss into `+∞`, so
`rs = gain/∞ = 0` there — modelled by the `if l = 0 then 0 else g / l`
ratio below. -/
def rsi (data : List ℚ) (period : ℕ) : Series :=
  if period = 0 then List.replicate data.length (some 50)
  else if data.length < period + 1 then List.replicate data.length (some 50)
  else
    let delta := seriesDiff (lift data)
    let gain : List ℚ := delta.map (fun o =>
      match o with
      | some d => if 0 < d then d else 0
      | none => 0)
    let loss : List ℚ := delta.map (fun o =>
      match o with
      | some d => if d < 0 then -d else 0
      | none => 0)
    let gainAvg := rollingOp meanFn period (lift gain)
    let lossAvg := rollingOp meanFn period (lift loss)
    let rsiRaw := List.zipWith (cell2 (fun g l =>
      100 - 100 / (1 + (if l = 0 then 0 else g / l)))) gainAvg lossAvg
    fillna 50 rsiRaw

/-- `TechnicalIndicators.macd(data, fast, slow, signal)`
(`utils/indicators.py:57-82`).  A zero span makes `ewm` raise and the
except-branch returns three zero lists, which coincides with the
short-input branch.  The main path uses the pandas default `adjust=True`;
its output is NaN-free on NaN-free input, so the `fillna(0.0)` calls are
the identity there and `lift` of the float computation is the result. -/
def macd (data : List ℚ) (fast slow signal : ℕ) : Series × Series × Series :=
  if fast = 0 ∨ slow = 0 ∨ signal = 0 then
    (List.replicate data.length (some 0), List.replicate data.length (some 0),
     List.replicate data.length (some 0))
  else if data.length < slow then
    (List.replicate data.length (some 0), List.replicate data.length (some 0),
     List.replicate data.length (some 0))
  else
    let emaFast := ewmAT (spanAlpha fast) data
    let emaSlow := ewmAT (spanAlpha slow) data
    let macdLine := List.zipWith (fun a b => a - b) emaFast emaSlow
    let signalLine := ewmAT (spanAlpha signal) macdLine
    let histogram := List.zipWith (fun a b => a - b) macdLine signalLine
    (fillna 0 (lift macdLine), fillna 0 (lift signalLine), fillna 0 (lift histogram))

/-- `TechnicalIndicators.bollinger_bands(data, period, std)`
(`utils/indicators.py:84-106`), parametrised by an abstract square root
`sqrtQ` for `Series.std`.  `period = 0` makes `rolling(0)` raise and the
except-branch echoes the input three times, like the short-input branch;
`period = 1` makes every `std` window NaN (`ddof=1`). -/
def bollinger_bands (sqrtQ : ℚ → ℚ) (data : List ℚ) (period : ℕ) (std : ℚ) :
    Series × Series × Series :=
  if period = 0 then (lift data, lift data, lift data)
  else if data.length < period then (lift data, lift data, lift data)
  else
    let middle := rollingOp meanFn period (lift data)
    let stdDev :=
      if period = 1 then List.replicate data.length (none : Cell)
      else rollingOp (fun w => sqrtQ (sampleVar w)) period (lift data)
    let upper := zipO (fun m s => m + s * std) middle stdDev
    let lower := zipO (fun m s => m - s * std) middle stdDev
    (fillna (lastD data * (102/100)) (bfill upper),
     fillna (lastD data) (bfill middle),
     fillna (lastD data * (98/100)) (bfill lower))

/-- The short-input/except fallback of `atr`:
`sum(h - l for h, l in zip(high, low)) / len(high) if high and low else 100`. -/
def atrFallback (high low : List ℚ) : ℚ :=
  if high = [] ∨ low = [] then 100
  else ((high.zip low).map (fun p => p.1 - p.2)).sum / (high.length : ℚ)

/-- `TechnicalIndicators.atr(high, low, close, period)`
(`utils/indicators.py:108-135`).  `period = 0` makes `rolling(0)` raise and
the except-branch returns the same flat fallback as the short-input branch.
In the main path the elementwise `max` over `(tr1, tr2, tr3)` skips NaN, so
at index 0 (where `close.shift()` is NaN) it is `high - low`. -/
def atr (high low close : List ℚ) (period : ℕ) : Series :=
  if period = 0 ∨ high.length < period + 1 then
    List.replicate high.length (some (atrFallback high low))
  else
    let shifted : Series := none :: close.map some
    let trueRange : List ℚ := List.zipWith
      (fun (hl : ℚ × ℚ) (pc : Cell) =>
        match pc with
        | none => hl.1 - hl.2
        | some c => max (hl.1 - hl.2) (max |hl.1 - c| |hl.2 - c|))
      (high.zip low) shifted
    let a := rollingOp meanFn period (lift trueRange)
    fillna (meanFn trueRange) (bfill a)

/-- The cumulative loop of `vwap`, carrying `cum_pv` and `cum_vol` over
triples `((pv_i, volume_i), close_i)`. -/
def vwapGo (cpv cv : ℚ) : List ((ℚ × ℚ) × ℚ) → List ℚ
  | [] => []
  | ((p, v), c) :: rest =>
    let cpv2 := cpv + p
    let cv2 := cv + v
    (if 0 < cv2 then cpv2 / cv2 else c) :: vwapGo cpv2 cv2 rest

/-- `TechnicalIndicators.vwap(high, low, close, volume)`
(`utils/indicators.py:137-163`): cumulative typical-price/volume ratio,
emitting `close[i]` whenever the cumulative volume is not positive. -/
def vwap (high low close volume : List ℚ) : List ℚ :=
  if close.length ≠ volume.length ∨ close.length = 0 then close
  else
    let typicalPrice := List.zipWith (fun (hl : ℚ × ℚ) c => (hl.1 + hl.2 + c) / 3)
      (high.zip low) close
    let pv := List.zipWith (· * ·) typicalPrice volume
    vwapGo 0 0 ((pv.zip volume).zip close)

/-- `TechnicalIndicators.stochastic_rsi(data, period, k_period, d_period)`
(`utils/indicators.py:165-197`).  A zero window makes `rolling` raise and
the except-branch returns the all-50 pair, like the short-input branch.
`rsi_range.replace(0, 100)` maps a zero rolling range to 100. -/
def stochastic_rsi (data : List ℚ) (period k_period d_period : ℕ) :
    Series × Series :=
  let rsiValues := rsi data period
  if rsiValues.length < period then
    (List.replicate data.length (some 50), List.replicate data.length (some 50))
  else if period = 0 ∨ k_period = 0 ∨ d_period = 0 then
    (List.replicate data.length (some 50), List.replicate data.length (some 50))
  else
    let lowestRsi := rollingOp minFn period rsiValues
    let highestRsi := rollingOp maxFn period rsiValues
    let rsiRange := (zipO (fun a b => a - b) highestRsi lowestRsi).map
      (Option.map (fun r => if r = 0 then 100 else r))
    let kPercent := zipO (fun n r => n / r)
      (zipO (fun x lo => 100 * (x - lo)) rsiValues lowestRsi) rsiRange
    let kSmoothed := rollingOp meanFn k_period kPercent
    let dSmoothed := rollingOp meanFn d_period kSmoothed
    (fillna 50 kSmoothed, fillna 50 dSmoothed)

/-- The accumulation loop of `obv`, carrying the running OBV value and the
previous close over pairs `(close_i, volume_i)` for `i ≥ 1`. -/
def obvGo (prev pc : ℚ) : List (ℚ × ℚ) → List ℚ
  | [] => []
  | (c, v) :: rest =>
    let nxt := if pc < c then prev + v else if c < pc then prev - v else prev
    nxt :: obvGo nxt c rest

/-- `TechnicalIndicators.obv(close, volume)` (`utils/indicators.py:199-219`):
running signed volume sum, starting at 0. -/
def obv (close volume : List ℚ) : List ℚ :=
  if close.length ≠ volume.length ∨ close.length < 2 then
    List.replicate close.length 0
  else 0 :: obvGo 0 (close.headD 0) ((close.zip volume).drop 1)

end TechnicalIndicators

/-- The seven floor-trader pivot levels (`PivotLevels` of the spec). -/
structure Pivots where
  P : ℚ
  R1 : ℚ
  R2 : ℚ
  R3 : ℚ
  S1 : ℚ
  S2 : ℚ
  S3 : ℚ
deriving DecidableEq, Repr

namespace SRLevels

/-- `SRLevels.pivot_points(high, low, close)` (`utils/sr_levels.py:18-50`).
The arithmetic cannot raise on real inputs, so the except-branch is
unreachable and only the main formula is embedded.  Every level is rounded
to 2 decimals, as in the source. -/
def pivot_points (high low close : ℚ) : Pivots :=
  let pivot := (high + low + close) / 3
  { P := pyRound 2 pivot
    R1 := pyRound 2 ((2 * pivot) - low)
    R2 := pyRound 2 (pivot + (high - low))
    R3 := pyRound 2 (high + 2 * (pivot - low))
    S1 := pyRound 2 ((2 * pivot) - high)
    S2 := pyRound 2 (pivot - (high - low))
    S3 := pyRound 2 (low - 2 * (high - pivot)) }

/-- `SRLevels.weekly_high_low(highs, lows, periods)`
(`utils/sr_levels.py:52-78`), returning `(weekly_high, weekly_low)`.
The window is clamped to the available length; an empty input or a zero
window yields `(0, 0)`. -/
def weekly_high_low (highs lows : List ℚ) (periods : ℕ) : ℚ × ℚ :=
  if highs = [] ∨ lows = [] then (0, 0)
  else
    let p := if highs.length < periods then highs.length else periods
    if p = 0 then (0, 0)
    else
      (pyRound 2 (maxFn (highs.drop (highs.length - p))),
       pyRound 2 (minFn (lows.drop (lows.length - p))))

/-- `SRLevels.vwap_bands(vwap_values, period, multiplier)`
(`utils/sr_levels.py:80-107`), returning `(vwap_upper, vwap_lower)` and
parametrised by an abstract square root for `np.std`.  The embedded inputs
are NaN-free rationals, so the source's NaN filter keeps the whole trailing
window and the `if not valid_vwap` guard is unreachable (kept for shape). -/
def vwap_bands (sqrtQ : ℚ → ℚ) (vwap_values : List ℚ) (period : ℕ)
    (multiplier : ℚ) : ℚ × ℚ :=
  if vwap_values.length < period ∨ period = 0 then (0, 0)
  else
    let validVwap := vwap_values.drop (vwap_values.length - period)
    if validVwap = [] then (0, 0)
    else
      let vwapStd := sqrtQ (popVar validVwap)
      let currentVwap := lastD validVwap
      (pyRound 2 (currentVwap + vwapStd * multiplier),
       pyRound 2 (currentVwap - vwapStd * multiplier))

/-- `SRLevels.is_near_level(price, level, tolerance_pct)`
(`utils/sr_levels.py:109-120`): false at level 0, else compares the absolute
distance against `level * tolerance_pct / 100`. -/
def is_near_level (price level tolerance_pct : ℚ) : Bool :=
  if level = 0 then false
  else |price - level| ≤ level * (tolerance_pct / 100)

end SRLevels

/-- An order-book snapshot: `(price, size)` levels per side.  A missing or
malformed book (`{}`, absent keys) is modelled as `none` at use sites. -/
structure OrderBook where
  bids : List (ℚ × ℚ)
  asks : List (ℚ × ℚ)
deriving DecidableEq, Repr

/-- The dict returned by `OrderBookAnalyzer.analyze_depth`.  The degenerate
branches of the source omit the `best_bid`/`best_ask` keys (never read by
any caller); here they are carried as 0. -/
structure DepthInfo where
  bid_depth : ℚ
  ask_depth : ℚ
  imbalance : ℚ
  spread : ℚ
  midprice : ℚ
  bias : String
  best_bid : ℚ
  best_ask : ℚ
deriving DecidableEq, Repr

/-- The all-zero metrics dict of the degenerate `analyze_depth` branches. -/
def emptyDepth (b : String) : DepthInfo :=
  { bid_depth := 0, ask_depth := 0, imbalance := 0, spread := 0,
    midprice := 0, bias := b, best_bid := 0, best_ask := 0 }

/-- One detected wall of `OrderBookAnalyzer.detect_walls`. -/
structure Wall where
  price : ℚ
  size : ℚ
  ratio : ℚ
deriving DecidableEq, Repr

namespace OrderBookAnalyzer

/-- The depth of one book side: sum of the sizes of its top 10 levels
(`sum(float(bid[1]) for bid in bids[:10])`). -/
def sideDepth (levels : List (ℚ × ℚ)) : ℚ :=
  ((levels.take 10).map (fun l => l.2)).sum

/-- `OrderBookAnalyzer.analyze_depth(orderbook)` (`utils/orderbook.py:7-78`).
Depths are summed over the top 10 levels per side; the bias is classified
from the unrounded imbalance; the returned depth/imbalance/spread/midprice
values are rounded as in the source. -/
def analyze_depth (orderbook : Option OrderBook) : DepthInfo :=
  match orderbook with
  | none => emptyDepth "Neutral"
  | some ob =>
    if ob.bids = [] ∨ ob.asks = [] then emptyDepth "Neutral"
    else
      let bidDepth := sideDepth ob.bids
      let askDepth := sideDepth ob.asks
      let totalDepth := bidDepth + askDepth
      let imbalance := if 0 < totalDepth then (bidDepth - askDepth) / totalDepth else 0
      let bestBid := (ob.bids.headD (0, 0)).1
      let bestAsk := (ob.asks.headD (0, 0)).1
      let spread := if 0 < bestBid ∧ 0 < bestAsk then bestAsk - bestBid else 0
      let midprice := if 0 < bestBid ∧ 0 < bestAsk then (bestBid + bestAsk) / 2 else 0
      let bias := if 1/5 < imbalance then "Bullish (strong bid depth)"
        else if imbalance < -(1/5) then "Bearish (strong ask depth)"
        else "Neutral"
      { bid_depth := pyRound 2 bidDepth, ask_depth := pyRound 2 askDepth,
        imbalance := pyRound 3 imbalance, spread := pyRound 2 spread,
        midprice := pyRound 2 midprice, bias := bias,
        best_bid := bestBid, best_ask := bestAsk }

/-- The per-side wall scan of `detect_walls`: every level of the (already
top-20-truncated, nonempty) side whose size exceeds `mean · multiplier`,
in book order, carrying price, size and size/mean ratio. -/
def wallsFor (levels : List (ℚ × ℚ)) (multiplier : ℚ) : List Wall :=
  let sizes := levels.map (fun l => l.2)
  let avgSize := sizes.sum / (sizes.length : ℚ)
  (levels.filter (fun l => avgSize * multiplier < l.2)).map (fun l =>
    { price := l.1, size := l.2,
      ratio := if 0 < avgSize then l.2 / avgSize else 0 })

/-- `OrderBookAnalyzer.detect_walls(orderbook, threshold_multiplier)`
(`utils/orderbook.py:80-134`), returning `(bid_walls, ask_walls)`: the scan
runs over the top 20 levels per side and each result list is truncated to
its FIRST three entries in book order (`bid_walls[:3]`). -/
def detect_walls (orderbook : Option OrderBook) (threshold_multiplier : ℚ) :
    List Wall × List Wall :=
  match orderbook with
  | none => ([], [])
  | some ob =>
    let bids := ob.bids.take 20
    let asks := ob.asks.take 20
    if bids = [] ∨ asks = [] then ([], [])
    else ((wallsFor bids threshold_multiplier).take 3,
          (wallsFor asks threshold_multiplier).take 3)

end OrderBookAnalyzer

/-- A parsed KuCoin kline `[time, open, close, high, low, volume, turnover]`
(all entries already converted to floats). -/
structure Kline where
  time : ℚ
  openP : ℚ
  close : ℚ
  high : ℚ
  low : ℚ
  volume : ℚ
  turnover : ℚ
deriving DecidableEq, Repr

namespace BTCStrategy

/-- The dict returned by `BTCStrategy.get_signal`
(`strategies/btc_strategy.py:309-330`). -/
structure Signal where
  symbol : String
  timeframe : String
  side : String
  entry : ℚ
  stop_loss : ℚ
  take_profit : ℚ
  quantity : ℚ
  notional : ℚ
  risk_usdt : ℚ
  sr_S1 : ℚ
  sr_S2 : ℚ
  sr_R1 : ℚ
  sr_R2 : ℚ
  orderbook_bias : String
  confidence : ℚ
  strategy_name : String
  current_rsi : ℚ
  current_atr : ℚ
deriving DecidableEq, Repr

/-- `BTCStrategy.compute_position_size(entry, stop, risk_pct,
max_notional_pct)` (`strategies/btc_strategy.py:192-213`), with the account
balance passed explicitly; returns `(quantity, position_value, risk_amount)`
rounded to 4/2/2 decimals as in the source. -/
def compute_position_size (account_balance entry stop risk_pct max_notional_pct : ℚ) :
    ℚ × ℚ × ℚ :=
  let riskAmount := account_balance * risk_pct
  let stopDistance := |entry - stop|
  if stopDistance ≤ 0 then (0, 0, 0)
  else
    let qty := riskAmount / stopDistance
    let notional := qty * entry
    let maxNotional := account_balance * max_notional_pct
    if maxNotional < notional then
      let qty2 := maxNotional / entry
      (pyRound 4 qty2, pyRound 2 (qty2 * entry), pyRound 2 (qty2 * stopDistance))
    else (pyRound 4 qty, pyRound 2 notional, pyRound 2 riskAmount)

/-- The BTC decision block (`strategies/btc_strategy.py:257-292`): trend,
VWAP and RSI filters per direction, an S/R proximity check (with the ATR
passed as `is_near_level`'s tolerance argument) and an order-book
confirmation increment; returns `(signal, confidence)` before the 0.95 cap. -/
def signalConf (currentPrice currentEma50 currentEma200 currentRsi currentAtr
    currentVwap : ℚ) (piv : Pivots) (weeklyHigh weeklyLow imbalance : ℚ) :
    String × ℚ :=
  if currentEma200 < currentEma50 ∧ currentVwap < currentPrice ∧ 50 < currentRsi then
    if SRLevels.is_near_level currentPrice piv.S1 currentAtr
        || SRLevels.is_near_level currentPrice piv.S2 currentAtr
        || SRLevels.is_near_level currentPrice weeklyLow (currentAtr * (3/2))
        || decide (piv.S1 < currentPrice) then
      if 1/10 < imbalance then ("LONG", 7/10 + 1/10) else ("LONG", 7/10)
    else ("HOLD", 3/10)
  else if currentEma50 < currentEma200 ∧ currentPrice < currentVwap ∧ currentRsi < 50 then
    if SRLevels.is_near_level currentPrice piv.R1 currentAtr
        || SRLevels.is_near_level currentPrice piv.R2 currentAtr
        || SRLevels.is_near_level currentPrice weeklyHigh (currentAtr * (3/2))
        || decide (currentPrice < piv.R1) then
      if imbalance < -(1/10) then ("SHORT", 7/10 + 1/10) else ("SHORT", 7/10)
    else ("HOLD", 3/10)
  else ("HOLD", 3/10)

/-- The BTC stop-loss/take-profit rule (`strategies/btc_strategy.py:295-304`):
pivot-clamped ATR offsets for LONG/SHORT, fixed ±2% offsets otherwise. -/
def stopTp (signal : String) (currentPrice currentAtr : ℚ) (piv : Pivots) : ℚ × ℚ :=
  if signal = "LONG" then
    (max (piv.S1 * (999/1000)) (currentPrice - currentAtr),
     min piv.R1 (currentPrice + currentAtr * (3/2)))
  else if signal = "SHORT" then
    (min (piv.R1 * (1001/1000)) (currentPrice + currentAtr),
     max piv.S1 (currentPrice - currentAtr * (3/2)))
  else (currentPrice * (98/100), currentPrice * (102/100))

/-- `BTCStrategy.get_signal(timeframe)` (`strategies/btc_strategy.py:215-334`),
with the fetched klines and order book passed as values (the client is the
external market-data collaborator).  Empty klines and fewer than 200 candles
short-circuit to `none`; otherwise the Trend-Rider pipeline builds the
signal dict. -/
def get_signal (account_balance : ℚ) (timeframe : String) (klines : List Kline)
    (orderbook : Option OrderBook) : Option Signal :=
  if klines = [] then none
  else
    let closes := klines.map Kline.close
    let highs := klines.map Kline.high
    let lows := klines.map Kline.low
    let volumes := klines.map Kline.volume
    if closes.length < 200 then none
    else
      let ema50 := TechnicalIndicators.ema closes 50
      let ema200 := TechnicalIndicators.ema closes 200
      let rsi14 := TechnicalIndicators.rsi closes 14
      let atr14 := TechnicalIndicators.atr highs lows closes 14
      let vwapList := TechnicalIndicators.vwap highs lows closes volumes
      let currentPrice := lastD closes
      let currentEma50 := safe_value (lastO ema50) currentPrice
      let currentEma200 := safe_value (lastO ema200) currentPrice
      let currentRsi := safe_value (lastO rsi14) 50
      let currentAtr := safe_value (lastO atr14) (currentPrice * (2/100))
      let currentVwap := safe_value (lastO (lift vwapList)) currentPrice
      let piv := SRLevels.pivot_points (nthFromEnd highs 2) (nthFromEnd lows 2)
        (nthFromEnd closes 2)
      let weekly := SRLevels.weekly_high_low highs lows (min 168 highs.length)
      let orderbookData := OrderBookAnalyzer.analyze_depth orderbook
      let sc := signalConf currentPrice currentEma50 currentEma200 currentRsi
        currentAtr currentVwap piv weekly.1 weekly.2 orderbookData.imbalance
      let entryPrice := currentPrice
      let st := stopTp sc.1 currentPrice currentAtr piv
      let pos := compute_position_size account_balance entryPrice st.1 (1/100) (3/10)
      some
        { symbol := "BTC-USDT", timeframe := timeframe, side := sc.1,
          entry := pyRound 2 entryPrice, stop_loss := pyRound 2 st.1,
          take_profit := pyRound 2 st.2,
          quantity := pos.1, notional := pos.2.1, risk_usdt := pos.2.2,
          sr_S1 := pyRound 2 piv.S1, sr_S2 := pyRound 2 piv.S2,
          sr_R1 := pyRound 2 piv.R1, sr_R2 := pyRound 2 piv.R2,
          orderbook_bias := orderbookData.bias,
          confidence := min sc.2 (19/20),
          strategy_name := "Trend Rider + S/R Filter",
          current_rsi := pyRound 1 currentRsi,
          current_atr := pyRound 2 currentAtr }

end BTCStrategy

namespace ETHStrategy

/-- The dict returned by `ETHStrategy.get_signal`
(`strategies/eth_strategy.py:130-146`). -/
structure Signal where
  symbol : String
  side : String
  entry : ℚ
  stop_loss : ℚ
  take_profit : ℚ
  sr_S1 : ℚ
  sr_S2 : ℚ
  sr_R1 : ℚ
  sr_R2 : ℚ
  orderbook_bias : String
  confidence : ℚ
  strategy_name : String
  bb_position : String
deriving DecidableEq, Repr

/-- The ETH decision block (`strategies/eth_strategy.py:69-108`):
mean-reversion entries from the Bollinger edges guarded by S/R, then
breakout entries; returns `(signal, confidence)` before the order-book
adjustment and the 0.95 cap. -/
def signalConf (currentPrice bbUpper bbLower ema20 ema50 macdHist : ℚ)
    (piv : Pivots) : String × ℚ :=
  if currentPrice ≤ bbLower ∧ ema50 < ema20 ∧ 0 < macdHist then
    if SRLevels.is_near_level currentPrice piv.S1 1 || decide (piv.S2 < currentPrice) then
      ("LONG", 1/2 + 1/4)
    else ("HOLD", 3/10)
  else if bbUpper ≤ currentPrice ∧ ema20 < ema50 ∧ macdHist < 0 then
    if SRLevels.is_near_level currentPrice piv.R1 1 || decide (currentPrice < piv.R2) then
      ("SHORT", 1/2 + 1/4)
    else ("HOLD", 3/10)
  else if bbUpper < currentPrice ∧ ema50 < ema20 then
    if piv.R1 < currentPrice then ("LONG", 1/2 + 1/5) else ("HOLD", 3/10)
  else if currentPrice < bbLower ∧ ema20 < ema50 then
    if currentPrice < piv.S1 then ("SHORT", 1/2 + 1/5) else ("HOLD", 3/10)
  else ("HOLD", 3/10)

/-- The post-decision order-book confirmation shared by the ETH and SOL
variants: a fixed increment when a LONG (resp. SHORT) signal sees the
imbalance beyond the threshold. -/
def obConfirm (sc : String × ℚ) (imbalance threshold increment : ℚ) : ℚ :=
  if sc.1 = "LONG" ∧ threshold < imbalance then sc.2 + increment
  else if sc.1 = "SHORT" ∧ imbalance < -threshold then sc.2 + increment
  else sc.2

/-- The ETH stop-loss/take-profit rule (`strategies/eth_strategy.py:120-128`):
Bollinger-clamped ATR-estimate offsets for LONG/SHORT, fixed ±2% offsets
otherwise. -/
def stopTp (signal : String) (currentPrice bbLower bbUpper bbMiddle atrEstimate : ℚ) :
    ℚ × ℚ :=
  if signal = "LONG" then
    (max (bbLower * (995/1000)) (currentPrice - atrEstimate), bbMiddle)
  else if signal = "SHORT" then
    (min (bbUpper * (1005/1000)) (currentPrice + atrEstimate), bbMiddle)
  else (currentPrice * (98/100), currentPrice * (102/100))

/-- `ETHStrategy.get_signal()` (`strategies/eth_strategy.py:28-150`), with
the fetched klines and order book passed as values and `Series.std`'s square
root abstract.  Empty klines and fewer than 30 candles short-circuit to
`none`; otherwise the Mean-Reversion + Breakout pipeline builds the dict. -/
def get_signal (sqrtQ : ℚ → ℚ) (klines : List Kline)
    (orderbook : Option OrderBook) : Option Signal :=
  if klines = [] then none
  else
    let closes := klines.map Kline.close
    let highs := klines.map Kline.high
    let lows := klines.map Kline.low
    if closes.length < 30 then none
    else
      let bb := TechnicalIndicators.bollinger_bands sqrtQ closes 20 2
      let ema20 := TechnicalIndicators.ema closes 20
      let ema50 := TechnicalIndicators.ema closes 50
      let macd3 := TechnicalIndicators.macd closes 12 26 9
      let currentPrice := lastD closes
      let currentBbUpper := safe_value (lastO bb.1) (currentPrice * (102/100))
      let currentBbLower := safe_value (lastO bb.2.2) (currentPrice * (98/100))
      let currentBbMiddle := safe_value (lastO bb.2.1) currentPrice
      let currentEma20 := safe_value (lastO ema20) currentPrice
      let currentEma50 := safe_value (lastO ema50) currentPrice
      let currentMacdHist := safe_value (lastO macd3.2.2) 0
      let piv := SRLevels.pivot_points (lastD highs) (lastD lows) (lastD closes)
      let orderbookData := OrderBookAnalyzer.analyze_depth orderbook
      let sc := signalConf currentPrice currentBbUpper currentBbLower currentEma20
        currentEma50 currentMacdHist piv
      let confidence := obConfirm sc orderbookData.imbalance (1/10) (3/20)
      let entryPrice := currentPrice
      let atrEstimate := (maxFn (highs.drop (highs.length - 20)) -
        minFn (lows.drop (lows.length - 20))) / 20
      let st := stopTp sc.1 currentPrice currentBbLower currentBbUpper
        currentBbMiddle atrEstimate
      some
        { symbol := "ETH/USDT", side := sc.1,
          entry := pyRound 2 entryPrice, stop_loss := pyRound 2 st.1,
          take_profit := pyRound 2 st.2,
          sr_S1 := piv.S1, sr_S2 := piv.S2, sr_R1 := piv.R1, sr_R2 := piv.R2,
          orderbook_bias := orderbookData.bias,
          confidence := min confidence (19/20),
          strategy_name := "Mean Reversion + Breakout",
          bb_position := if currentBbUpper < currentPrice then "Upper"
            else if currentPrice < currentBbLower then "Lower" else "Middle" }

end ETHStrategy

namespace SOLStrategy

/-- The dict returned by `SOLStrategy.get_signal`
(`strategies/sol_strategy.py:130-149`). -/
structure Signal where
  symbol : String
  side : String
  entry : ℚ
  stop_loss : ℚ
  take_profit : ℚ
  sr_S1 : ℚ
  sr_S2 : ℚ
  sr_R1 : ℚ
  sr_R2 : ℚ
  orderbook_bias : String
  confidence : ℚ
  strategy_name : String
  stoch_rsi : ℚ
  obv_trend : String
  pd_high : ℚ
  pd_low : ℚ
deriving DecidableEq, Repr

/-- The SOL decision block (`strategies/sol_strategy.py:76-109`): EMA
crossover, Stochastic-RSI band, VWAP position and OBV trend per direction,
guarded by previous-day/VWAP-band proximity; returns `(signal, confidence)`
before the order-book adjustment and the 0.95 cap. -/
def signalConf (currentPrice ema9 ema21 stochK currentVwap : ℚ)
    (obvTrend : String) (piv : Pivots) (pdHigh pdLow vwapUpper vwapLower : ℚ) :
    String × ℚ :=
  if ema21 < ema9 ∧ stochK < 30 ∧ currentVwap < currentPrice ∧ obvTrend = "rising" then
    if SRLevels.is_near_level currentPrice pdLow 1
        || SRLevels.is_near_level currentPrice vwapLower (1/2)
        || decide (piv.S1 < currentPrice) then
      ("LONG", 1/2 + 3/10)
    else ("HOLD", 3/10)
  else if ema9 < ema21 ∧ 70 < stochK ∧ currentPrice < currentVwap ∧ obvTrend = "falling" then
    if SRLevels.is_near_level currentPrice pdHigh 1
        || SRLevels.is_near_level currentPrice vwapUpper (1/2)
        || decide (currentPrice < piv.R1) then
      ("SHORT", 1/2 + 3/10)
    else ("HOLD", 3/10)
  else ("HOLD", 3/10)

/-- The SOL stop-loss/take-profit rule (`strategies/sol_strategy.py:120-128`):
fixed scalper offsets per direction, ±1% offsets otherwise. -/
def stopTp (signal : String) (currentPrice : ℚ) : ℚ × ℚ :=
  if signal = "LONG" then (currentPrice * (9965/10000), currentPrice * (1006/1000))
  else if signal = "SHORT" then (currentPrice * (10035/10000), currentPrice * (994/1000))
  else (currentPrice * (99/100), currentPrice * (101/100))

/-- `SOLStrategy.get_signal()` (`strategies/sol_strategy.py:28-153`), with
the fetched klines and order book passed as values and `np.std`'s square
root abstract.  Empty klines and fewer than 25 candles short-circuit to
`none`; otherwise the Scalper-Momentum pipeline builds the dict. -/
def get_signal (sqrtQ : ℚ → ℚ) (klines : List Kline)
    (orderbook : Option OrderBook) : Option Signal :=
  if klines = [] then none
  else
    let closes := klines.map Kline.close
    let highs := klines.map Kline.high
    let lows := klines.map Kline.low
    let volumes := klines.map Kline.volume
    if closes.length < 25 then none
    else
      let ema9 := TechnicalIndicators.ema closes 9
      let ema21 := TechnicalIndicators.ema closes 21
      let stoch := TechnicalIndicators.stochastic_rsi closes 14 3 3
      let obvList := TechnicalIndicators.obv closes volumes
      let vwapList := TechnicalIndicators.vwap highs lows closes volumes
      let currentPrice := lastD closes
      let currentEma9 := safe_value (lastO ema9) currentPrice
      let currentEma21 := safe_value (lastO ema21) currentPrice
      let currentStochK := safe_value (lastO stoch.1) 50
      let currentVwap := safe_value (lastO (lift vwapList)) currentPrice
      let obvTrend := if 3 ≤ obvList.length ∧
          obvList.getD (obvList.length - 3) 0 < lastD obvList
        then "rising" else "falling"
      let pdHigh := maxFn (highs.drop (highs.length - min 60 highs.length))
      let pdLow := minFn (lows.drop (lows.length - min 60 lows.length))
      let piv := SRLevels.pivot_points (lastD highs) (lastD lows) (lastD closes)
      let vb := SRLevels.vwap_bands sqrtQ (List.replicate 20 currentVwap) 20 1
      let orderbookData := OrderBookAnalyzer.analyze_depth orderbook
      let sc := signalConf currentPrice currentEma9 currentEma21 currentStochK
        currentVwap obvTrend piv pdHigh pdLow vb.1 vb.2
      let confidence := ETHStrategy.obConfirm sc orderbookData.imbalance (3/20) (1/5)
      let entryPrice := currentPrice
      let st := stopTp sc.1 currentPrice
      some
        { symbol := "SOL/USDT", side := sc.1,
          entry := pyRound 3 entryPrice, stop_loss := pyRound 3 st.1,
          take_profit := pyRound 3 st.2,
          sr_S1 := piv.S1, sr_S2 := piv.S2, sr_R1 := piv.R1, sr_R2 := piv.R2,
          orderbook_bias := orderbookData.bias,
          confidence := min confidence (19/20),
          strategy_name := "Scalper Momentum + S/R",
          stoch_rsi := pyRound 1 currentStochK,
          obv_trend := obvTrend,
          pd_high := pyRound 3 pdHigh, pd_low := pyRound 3 pdLow }

end SOLStrategy

/-- A constant candle (price 100, volume 1) used to build concrete
evaluation inputs. -/
def constKline : Kline := ⟨0, 100, 100, 100, 100, 1, 1⟩

/-- Placeholder BTC signal for `Option.getD` in concrete evaluations. -/
def btcNoSignal : BTCStrategy.Signal :=
  { symbol := "", timeframe := "", side := "", entry := 0, stop_loss := 0,
    take_profit := 0, quantity := 0, notional := 0, risk_usdt := 0,
    sr_S1 := 0, sr_S2 := 0, sr_R1 := 0, sr_R2 := 0, orderbook_bias := "",
    confidence := 0, strategy_name := "", current_rsi := 0, current_atr := 0 }

/-- Placeholder ETH signal for `Option.getD` in concrete evaluations. -/
def ethNoSignal : ETHStrategy.Signal :=
  { symbol := "", side := "", entry := 0, stop_loss := 0, take_profit := 0,
    sr_S1 := 0, sr_S2 := 0, sr_R1 := 0, sr_R2 := 0, orderbook_bias := "",
    confidence := 0, strategy_name := "", bb_position := "" }

/-- Placeholder SOL signal for `Option.getD` in concrete evaluations. -/
def solNoSignal : SOLStrategy.Signal :=
  { symbol := "", side := "", entry := 0, stop_loss := 0, take_profit := 0,
    sr_S1 := 0, sr_S2 := 0, sr_R1 := 0, sr_R2 := 0, orderbook_bias := "",
    confidence := 0, strategy_name := "", stoch_rsi := 0, obv_trend := "",
    pd_high := 0, pd_low := 0 }

/-- A 20-level bid side whose first three walls (size 30) are flagged
together with a larger fourth wall (size 100): mean size is 9.5, so the
default threshold is 28.5. -/
def wallBook : OrderBook :=
  { bids := [(1, 30), (2, 30), (3, 30), (4, 100), (5, 0), (6, 0), (7, 0),
             (8, 0), (9, 0), (10, 0), (11, 0), (12, 0), (13, 0), (14, 0),
             (15, 0), (16, 0), (17, 0), (18, 0), (19, 0), (20, 0)],
    asks := [(1, 1)] }

section NumericLemmas

lemma rhe_le_add_half (q : ℚ) : (rhe q : ℚ) ≤ q + 1/2 := by
  have h1 : ((⌊q⌋ : ℤ) : ℚ) ≤ q := Int.floor_le q
  have h2 : q < (⌊q⌋ : ℚ) + 1 := Int.lt_floor_add_one q
  unfold rhe
  split_ifs with ha hb hc <;> push_cast <;> linarith

lemma sub_half_le_rhe (q : ℚ) : q - 1/2 ≤ (rhe q : ℚ) := by
  have h1 : ((⌊q⌋ : ℤ) : ℚ) ≤ q := Int.floor_le q
  have h2 : q < (⌊q⌋ : ℚ) + 1 := Int.lt_floor_add_one q
  unfold rhe
  split_ifs with ha hb hc <;> push_cast <;> linarith

lemma rhe_mono {a b : ℚ} (hab : a ≤ b) : rhe a ≤ rhe b := by
  by_contra hlt
  push_neg at hlt
  have h1 : ((rhe b : ℤ) : ℚ) + 1 ≤ ((rhe a : ℤ) : ℚ) := by
    exact_mod_cast Int.add_one_le_iff.mpr hlt
  have h2 := rhe_le_add_half a
  have h3 := sub_half_le_rhe b
  have ha2 : ((rhe a : ℤ) : ℚ) = b + 1/2 := le_antisymm (by linarith) (by linarith)
  have hb2 : ((rhe b : ℤ) : ℚ) = b - 1/2 := le_antisymm (by linarith) (by linarith)
  have hba : b ≤ a := by linarith
  have hab2 : a = b := le_antisymm hab hba
  subst hab2
  linarith

lemma pyRound_mono (n : ℕ) {a b : ℚ} (hab : a ≤ b) : pyRound n a ≤ pyRound n b := by
  unfold pyRound
  have h10 : (0 : ℚ) < 10 ^ n := by positivity
  exact (div_le_div_iff_of_pos_right h10).mpr
    (Int.cast_le.mpr (rhe_mono (mul_le_mul_of_nonneg_right hab (le_of_lt h10))))

end NumericLemmas

section SeriesLemmas

lemma lift_length (xs : List ℚ) : (lift xs).length = xs.length :=
  List.length_map xs some

lemma seriesDiff_length (xs : Series) : (seriesDiff xs).length = xs.length := by
  cases xs with
  | nil => rfl
  | cons h t => simp [seriesDiff]

lemma rollingOp_length (f : List ℚ → ℚ) (w : ℕ) (xs : Series) :
    (rollingOp f w xs).length = xs.length := by
  simp [rollingOp]

lemma fillna_length (d : ℚ) (xs : Series) : (fillna d xs).length = xs.length := by
  simp [fillna]

lemma bfill_length (xs : Series) : (bfill xs).length = xs.length := by
  simp [bfill]

lemma ewmAFgo_length (α y : ℚ) (xs : List ℚ) :
    (ewmAFgo α y xs).length = xs.length := by
  induction xs generalizing y with
  | nil => rfl
  | cons h t ih => simp [ewmAFgo, ih]

lemma ewmAF_length (α : ℚ) (xs : List ℚ) : (ewmAF α xs).length = xs.length := by
  cases xs with
  | nil => rfl
  | cons h t => simp [ewmAF, ewmAFgo_length]

lemma ewmAT_length (α : ℚ) (xs : List ℚ) : (ewmAT α xs).length = xs.length := by
  simp [ewmAT]

lemma zipO_length (f : ℚ → ℚ → ℚ) (xs ys : Series) :
    (zipO f xs ys).length = min xs.length ys.length := by
  simp [zipO]

lemma vwapGo_length (l : List ((ℚ × ℚ) × ℚ)) :
    ∀ cpv cv, (TechnicalIndicators.vwapGo cpv cv l).length = l.length := by
  induction l with
  | nil => intro cpv cv; rfl
  | cons h t ih =>
    intro cpv cv
    obtain ⟨⟨p, v⟩, c⟩ := h
    simp [TechnicalIndicators.vwapGo, ih]

lemma obvGo_length (l : List (ℚ × ℚ)) :
    ∀ prev pc, (TechnicalIndicators.obvGo prev pc l).length = l.length := by
  induction l with
  | nil => intro prev pc; rfl
  | cons h t ih =>
    intro prev pc
    obtain ⟨c, v⟩ := h
    simp [TechnicalIndicators.obvGo, ih]

lemma rsi_length (data : List ℚ) (period : ℕ) :
    (TechnicalIndicators.rsi data period).length = data.length := by
  unfold TechnicalIndicators.rsi
  split_ifs with h0 hs
  · simp
  · simp
  · rw [fillna_length]
    rw [List.length_zipWith, rollingOp_length, rollingOp_length,
      lift_length, lift_length, List.length_map, List.length_map,
      seriesDiff_length, lift_length, min_self]

lemma fillna_all_isSome (d : ℚ) (xs : Series) :
    (fillna d xs).all Option.isSome = true := by
  simp [fillna, List.all_eq_true]

lemma lift_all_isSome (xs : List ℚ) : (lift xs).all Option.isSome = true := by
  simp [lift, List.all_eq_true]

lemma replicate_some_all_isSome (n : ℕ) (q : ℚ) :
    (List.replicate n (some q) : Series).all Option.isSome = true := by
  simp [List.all_eq_true]

end SeriesLemmas

/-- Claim C1: every indicator of `TechnicalIndicators` (ema, rsi, macd,
bollinger_bands, atr, vwap, stochastic_rsi, obv) returns output sequences
exactly as long as its input sequence, for every input length including 0
and lengths below the lookback (multi-series indicators taken on
equal-length candle columns, and bollinger for every square-root model). -/
theorem c1_indicator_output_length :
    (∀ data period, (TechnicalIndicators.ema data period).length = data.length) ∧
    (∀ data period, (TechnicalIndicators.rsi data period).length = data.length) ∧
    (∀ data fast slow sgn,
      (TechnicalIndicators.macd data fast slow sgn).1.length = data.length ∧
      (TechnicalIndicators.macd data fast slow sgn).2.1.length = data.length ∧
      (TechnicalIndicators.macd data fast slow sgn).2.2.length = data.length) ∧
    (∀ sqrtQ data period std,
      (TechnicalIndicators.bollinger_bands sqrtQ data period std).1.length = data.length ∧
      (TechnicalIndicators.bollinger_bands sqrtQ data period std).2.1.length = data.length ∧
      (TechnicalIndicators.bollinger_bands sqrtQ data period std).2.2.length = data.length) ∧
    (∀ high low close period, high.length = low.length → low.length = close.length →
      (TechnicalIndicators.atr high low close period).length = high.length) ∧
    (∀ high low close volume, high.length = close.length → low.length = close.length →
      close.length = volume.length →
      (TechnicalIndicators.vwap high low close volume).length = close.length) ∧
    (∀ data period kp dp,
      (TechnicalIndicators.stochastic_rsi data period kp dp).1.length = data.length ∧
      (TechnicalIndicators.stochastic_rsi data period kp dp).2.length = data.length) ∧
    (∀ close volume, (TechnicalIndicators.obv close volume).length = close.length) := by
  refine ⟨?_, ?_, ?_, ?_, ?_, ?_, ?_, ?_⟩
  · intro data period
    unfold TechnicalIndicators.ema
    split_ifs with h0 hs
    · cases data <;> simp
    · simp
    · rw [lift_length, ewmAF_length]
  · exact rsi_length
  · intro data fast slow sgn
    unfold TechnicalIndicators.macd
    split_ifs with h0 hs
    · simp
    · simp
    · refine ⟨?_, ?_, ?_⟩ <;>
        simp [fillna_length, lift_length, ewmAT_length, List.length_zipWith]
  · intro sqrtQ data period std
    unfold TechnicalIndicators.bollinger_bands
    split_ifs <;>
      refine ⟨?_, ?_, ?_⟩ <;>
        simp [fillna_length, bfill_length, zipO_length, rollingOp_length,
          lift_length]
  · intro high low close period hhl hlc
    unfold TechnicalIndicators.atr
    split_ifs with h0
    · simp
    · rw [fillna_length, bfill_length, rollingOp_length, lift_length,
        List.length_zipWith, List.length_zip, List.length_cons, List.length_map]
      omega
  · intro high low close volume hhc hlc hcv
    unfold TechnicalIndicators.vwap
    split_ifs with h0
    · rfl
    · rw [vwapGo_length, List.length_zip, List.length_zip, List.length_zipWith,
        List.length_zipWith, List.length_zip]
      omega
  · intro data period kp dp
    unfold TechnicalIndicators.stochastic_rsi
    simp only [rsi_length]
    split_ifs <;>
      constructor <;>
        simp [fillna_length, rollingOp_length, zipO_length, rsi_length,
          List.length_map, List.length_zipWith]
  · intro close volume
    unfold TechnicalIndicators.obv
    split_ifs with h0
    · simp
    · push_neg at h0
      rw [List.length_cons, obvGo_length, List.length_drop, List.length_zip,
        ← h0.1, min_self]
      omega

/-- Witness for C1: the hypothesis-bearing conjuncts (atr, vwap) applied at
concrete equal-length inputs, one below and one above the lookback. -/
theorem c1_indicator_output_length_witness :
    (TechnicalIndicators.atr [3, 2] [1, 1] [2, 2] 14).length = 2 ∧
    (TechnicalIndicators.vwap [3, 2] [1, 1] [2, 2] [1, 0]).length = 2 := by
  constructor
  · exact c1_indicator_output_length.2.2.2.2.1 [3, 2] [1, 1] [2, 2] 14 rfl rfl
  · exact c1_indicator_output_length.2.2.2.2.2.1 [3, 2] [1, 1] [2, 2] [1, 0] rfl rfl rfl

/-- Counterexample to claim C5 as stated: the final EMA output on the
one-element input `[1]` with period 2 (shorter than the lookback) is the
documented all-NaN sentinel, so it does contain an undefined value. -/
theorem c5_counterexample_ema_nan :
    (TechnicalIndicators.ema [1] 2).all Option.isSome = false := by decide

/-- Claim C5 (amended): RSI, MACD, Bollinger Bands, ATR and Stochastic-RSI
never emit undefined (NaN) values in their final outputs, for every input
series; EMA is NaN-free whenever the input is at least as long as the
period, while a shorter nonempty input yields the documented all-NaN
sentinel output (the counterexample to the unamended claim). -/
theorem c5_no_nan_outputs :
    (∀ data period, period ≤ data.length →
      (TechnicalIndicators.ema data period).all Option.isSome = true) ∧
    (∀ data period, (TechnicalIndicators.rsi data period).all Option.isSome = true) ∧
    (∀ data fast slow sgn,
      (TechnicalIndicators.macd data fast slow sgn).1.all Option.isSome = true ∧
      (TechnicalIndicators.macd data fast slow sgn).2.1.all Option.isSome = true ∧
      (TechnicalIndicators.macd data fast slow sgn).2.2.all Option.isSome = true) ∧
    (∀ sqrtQ data period std,
      (TechnicalIndicators.bollinger_bands sqrtQ data period std).1.all Option.isSome = true ∧
      (TechnicalIndicators.bollinger_bands sqrtQ data period std).2.1.all Option.isSome = true ∧
      (TechnicalIndicators.bollinger_bands sqrtQ data period std).2.2.all Option.isSome = true) ∧
    (∀ high low close period,
      (TechnicalIndicators.atr high low close period).all Option.isSome = true) ∧
    (∀ data period kp dp,
      (TechnicalIndicators.stochastic_rsi data period kp dp).1.all Option.isSome = true ∧
      (TechnicalIndicators.stochastic_rsi data period kp dp).2.all Option.isSome = true) := by
  refine ⟨?_, ?_, ?_, ?_, ?_, ?_⟩
  · intro data period hlen
    unfold TechnicalIndicators.ema
    split_ifs with h0 hs
    · cases data <;> simp
    · omega
    · exact lift_all_isSome _
  · intro data period
    unfold TechnicalIndicators.rsi
    split_ifs <;> simp [fillna_all_isSome, replicate_some_all_isSome]
  · intro data fast slow sgn
    unfold TechnicalIndicators.macd
    split_ifs <;>
      refine ⟨?_, ?_, ?_⟩ <;>
        simp [fillna_all_isSome, replicate_some_all_isSome]
  · intro sqrtQ data period std
    unfold TechnicalIndicators.bollinger_bands
    split_ifs <;>
      refine ⟨?_, ?_, ?_⟩ <;>
        simp [fillna_all_isSome, lift_all_isSome]
  · intro high low close period
    unfold TechnicalIndicators.atr
    split_ifs <;> simp [fillna_all_isSome, replicate_some_all_isSome]
  · intro data period kp dp
    unfold TechnicalIndicators.stochastic_rsi
    simp only [rsi_length]
    split_ifs <;>
      constructor <;>
        simp [fillna_all_isSome, replicate_some_all_isSome]

/-- Witness for C5 (amended): the EMA conjunct applied at a concrete input
exactly as long as the period, together with a hypothesis-free conjunct at
concrete arguments. -/
theorem c5_no_nan_outputs_witness :
    (TechnicalIndicators.ema [1, 2] 2).all Option.isSome = true ∧
    (TechnicalIndicators.rsi [1, 2] 14).all Option.isSome = true := by
  constructor
  · exact c5_no_nan_outputs.1 [1, 2] 2 (by decide)
  · exact c5_no_nan_outputs.2.1 [1, 2] 14

/-- Claim C4 (code bug): on the strictly increasing series 1..15 with
period 14, the final window has zero average loss and positive average
gain, where the claim (and the standard RSI definition, and the intent of
the source's own "Avoid division by zero" guard) requires RSI = 100; the
code's `loss.replace(0, np.inf)` instead makes `rs = gain/∞ = 0`, so the
emitted RSI value is 0. -/
theorem c4_rsi_zero_loss_gives_zero :
    lastO (TechnicalIndicators.rsi
      [1, 2, 3, 4, 5, 6, 7, 8, 9, 10, 11, 12, 13, 14, 15] 14) = some 0 ∧
    (0 : ℚ) ≠ 100 := by
  constructor
  · with_unfolding_all rfl
  · decide

/-- Counterexample to claim C3 as stated: with high = low = 100 ≥ low and
the unconstrained close 10, the pivot is 70 and R1 = 40, so P ≤ R1 fails
(the chain requires the close to keep the pivot between low and high). -/
theorem c3_counterexample_pivot_ordering :
    (100 : ℚ) ≤ 100 ∧
    ¬((SRLevels.pivot_points 100 100 10).P ≤ (SRLevels.pivot_points 100 100 10).R1) := by
  constructor
  · decide
  · with_unfolding_all decide

/-- Claim C3 (amended): the seven returned levels satisfy
S3 ≤ S2 ≤ S1 ≤ P ≤ R1 ≤ R2 ≤ R3 whenever high ≥ low AND the close keeps the
pivot inside [low, high], i.e. 2·low − high ≤ close ≤ 2·high − low (which
holds in particular for any close between low and high); an arbitrary close
breaks the chain, as the counterexample shows. -/
theorem c3_pivot_ordering (h l c : ℚ) (_hl : l ≤ h)
    (hc1 : 2 * l - h ≤ c) (hc2 : c ≤ 2 * h - l) :
    (SRLevels.pivot_points h l c).S3 ≤ (SRLevels.pivot_points h l c).S2 ∧
    (SRLevels.pivot_points h l c).S2 ≤ (SRLevels.pivot_points h l c).S1 ∧
    (SRLevels.pivot_points h l c).S1 ≤ (SRLevels.pivot_points h l c).P ∧
    (SRLevels.pivot_points h l c).P ≤ (SRLevels.pivot_points h l c).R1 ∧
    (SRLevels.pivot_points h l c).R1 ≤ (SRLevels.pivot_points h l c).R2 ∧
    (SRLevels.pivot_points h l c).R2 ≤ (SRLevels.pivot_points h l c).R3 := by
  unfold SRLevels.pivot_points
  refine ⟨?_, ?_, ?_, ?_, ?_, ?_⟩ <;>
    exact pyRound_mono 2 (by linarith)

/-- Witness for C3 (amended): the ordering chain at the concrete candle
high 110, low 90, close 100. -/
theorem c3_pivot_ordering_witness :
    (SRLevels.pivot_points 110 90 100).S3 ≤ (SRLevels.pivot_points 110 90 100).S2 ∧
    (SRLevels.pivot_points 110 90 100).S2 ≤ (SRLevels.pivot_points 110 90 100).S1 ∧
    (SRLevels.pivot_points 110 90 100).S1 ≤ (SRLevels.pivot_points 110 90 100).P ∧
    (SRLevels.pivot_points 110 90 100).P ≤ (SRLevels.pivot_points 110 90 100).R1 ∧
    (SRLevels.pivot_points 110 90 100).R1 ≤ (SRLevels.pivot_points 110 90 100).R2 ∧
    (SRLevels.pivot_points 110 90 100).R2 ≤ (SRLevels.pivot_points 110 90 100).R3 :=
  c3_pivot_ordering 110 90 100 (by norm_num) (by norm_num) (by norm_num)

/-- Claim C6: `compute_position_size` implements the sizing rule — risk is
balance·risk_pct and quantity risk/|entry−stop| (returned rounded to 4/2/2
decimals); when the notional exceeds balance·max_notional_pct the quantity
shrinks to that cap over the entry with the risk recomputed as
quantity·|entry−stop|; a non-positive stop distance yields all zeros; and
the concrete example (entry 45000, stop 44500, balance 10000, 1% risk, 30%
cap) returns quantity 0.0667, notional 3000.00, risk 33.33. -/
theorem c6_compute_position_size :
    (∀ bal e s rp mp, |e - s| ≤ 0 →
      BTCStrategy.compute_position_size bal e s rp mp = (0, 0, 0)) ∧
    (∀ bal e s rp mp, 0 < |e - s| →
      (bal * rp / |e - s|) * e ≤ bal * mp →
      BTCStrategy.compute_position_size bal e s rp mp =
        (pyRound 4 (bal * rp / |e - s|),
         pyRound 2 ((bal * rp / |e - s|) * e),
         pyRound 2 (bal * rp))) ∧
    (∀ bal e s rp mp, 0 < |e - s| →
      bal * mp < (bal * rp / |e - s|) * e →
      BTCStrategy.compute_position_size bal e s rp mp =
        (pyRound 4 (bal * mp / e),
         pyRound 2 ((bal * mp / e) * e),
         pyRound 2 ((bal * mp / e) * |e - s|))) ∧
    BTCStrategy.compute_position_size 10000 45000 44500 (1/100) (3/10) =
      (667/10000, 3000, 3333/100) := by
  refine ⟨?_, ?_, ?_, ?_⟩
  · intro bal e s rp mp hd
    unfold BTCStrategy.compute_position_size
    rw [if_pos hd]
  · intro bal e s rp mp hd hcap
    unfold BTCStrategy.compute_position_size
    rw [if_neg (by linarith), if_neg (by push_neg; exact hcap)]
  · intro bal e s rp mp hd hcap
    unfold BTCStrategy.compute_position_size
    rw [if_neg (by linarith), if_pos hcap]
  · with_unfolding_all rfl

/-- Witness for C6: the zero-distance, uncapped and capped conjuncts each
applied at concrete inputs. -/
theorem c6_compute_position_size_witness :
    BTCStrategy.compute_position_size 10000 45000 45000 (1/100) (3/10) = (0, 0, 0) ∧
    BTCStrategy.compute_position_size 10000 100 50 (1/100) (3/10) =
      (pyRound 4 ((10000 * (1/100) : ℚ) / |(100 : ℚ) - 50|),
       pyRound 2 (((10000 * (1/100) : ℚ) / |(100 : ℚ) - 50|) * 100),
       pyRound 2 (10000 * (1/100) : ℚ)) ∧
    BTCStrategy.compute_position_size 10000 45000 44500 (1/100) (3/10) =
      (pyRound 4 ((10000 * (3/10) : ℚ) / 45000),
       pyRound 2 (((10000 * (3/10) : ℚ) / 45000) * 45000),
       pyRound 2 (((10000 * (3/10) : ℚ) / 45000) * |(45000 : ℚ) - 44500|)) := by
  refine ⟨?_, ?_, ?_⟩
  · exact c6_compute_position_size.1 10000 45000 45000 (1/100) (3/10)
      (by norm_num)
  · exact c6_compute_position_size.2.1 10000 100 50 (1/100) (3/10)
      (by norm_num) (by norm_num)
  · exact c6_compute_position_size.2.2.1 10000 45000 44500 (1/100) (3/10)
      (by norm_num) (by norm_num)

lemma analyze_depth_imbalance_eq (bk : OrderBook) (hb : bk.bids ≠ [])
    (ha : bk.asks ≠ []) :
    (OrderBookAnalyzer.analyze_depth (some bk)).imbalance =
      pyRound 3 (if 0 < OrderBookAnalyzer.sideDepth bk.bids +
            OrderBookAnalyzer.sideDepth bk.asks then
          (OrderBookAnalyzer.sideDepth bk.bids - OrderBookAnalyzer.sideDepth bk.asks) /
            (OrderBookAnalyzer.sideDepth bk.bids + OrderBookAnalyzer.sideDepth bk.asks)
        else 0) := by
  show (if bk.bids = [] ∨ bk.asks = [] then emptyDepth "Neutral" else _).imbalance = _
  rw [if_neg (show ¬(bk.bids = [] ∨ bk.asks = []) by simp [hb, ha])]

lemma sideDepth_nonneg (levels : List (ℚ × ℚ))
    (h : ∀ lv ∈ levels, 0 ≤ lv.2) : 0 ≤ OrderBookAnalyzer.sideDepth levels := by
  apply List.sum_nonneg
  intro x hx
  obtain ⟨l, hl, rfl⟩ := List.mem_map.mp hx
  exact h l (List.take_subset 10 levels hl)

lemma pyRound_zero (n : ℕ) : pyRound n 0 = 0 := by
  unfold pyRound rhe
  norm_num

/-- Counterexample to claim C7 as stated: for the book with one bid of size
1 and one ask of size 2, the exact imbalance ratio is −1/3, but
`analyze_depth` returns the 3-decimal rounding −0.333, which differs. -/
theorem c7_counterexample_imbalance_rounded :
    (OrderBookAnalyzer.analyze_depth (some ⟨[(1, 1)], [(1, 2)]⟩)).imbalance ≠
      ((1 : ℚ) - 2) / ((1 : ℚ) + 2) := by
  with_unfolding_all decide

/-- Claim C7 (amended): for a book with both sides non-empty, the returned
imbalance is the 3-decimal rounding of (bid_depth − ask_depth)/(bid_depth +
ask_depth) over the top-10 levels per side (the claimed exact equality only
fails by that display rounding); with non-negative sizes it lies in
[−1, 1]; it is 0 when the total depth is 0; and a missing or one-side-empty
book yields the all-zero metrics with bias "Neutral". -/
theorem c7_analyze_depth :
    (∀ bk : OrderBook, bk.bids ≠ [] → bk.asks ≠ [] →
      (OrderBookAnalyzer.analyze_depth (some bk)).imbalance =
        pyRound 3 (if 0 < OrderBookAnalyzer.sideDepth bk.bids +
              OrderBookAnalyzer.sideDepth bk.asks then
            (OrderBookAnalyzer.sideDepth bk.bids - OrderBookAnalyzer.sideDepth bk.asks) /
              (OrderBookAnalyzer.sideDepth bk.bids + OrderBookAnalyzer.sideDepth bk.asks)
          else 0)) ∧
    (∀ bk : OrderBook, bk.bids ≠ [] → bk.asks ≠ [] →
      (∀ lv ∈ bk.bids, 0 ≤ lv.2) → (∀ lv ∈ bk.asks, 0 ≤ lv.2) →
      -1 ≤ (OrderBookAnalyzer.analyze_depth (some bk)).imbalance ∧
        (OrderBookAnalyzer.analyze_depth (some bk)).imbalance ≤ 1) ∧
    (∀ bk : OrderBook, bk.bids ≠ [] → bk.asks ≠ [] →
      OrderBookAnalyzer.sideDepth bk.bids + OrderBookAnalyzer.sideDepth bk.asks = 0 →
      (OrderBookAnalyzer.analyze_depth (some bk)).imbalance = 0) ∧
    OrderBookAnalyzer.analyze_depth none = emptyDepth "Neutral" ∧
    (∀ bk : OrderBook, bk.bids = [] ∨ bk.asks = [] →
      OrderBookAnalyzer.analyze_depth (some bk) = emptyDepth "Neutral") := by
  refine ⟨?_, ?_, ?_, ?_, ?_⟩
  · exact analyze_depth_imbalance_eq
  · intro bk hb ha hbs has
    have himb := analyze_depth_imbalance_eq bk hb ha
    have hbd := sideDepth_nonneg bk.bids hbs
    have had := sideDepth_nonneg bk.asks has
    rw [himb]
    by_cases ht : 0 < OrderBookAnalyzer.sideDepth bk.bids +
        OrderBookAnalyzer.sideDepth bk.asks
    · rw [if_pos ht]
      have h1 : (OrderBookAnalyzer.sideDepth bk.bids -
            OrderBookAnalyzer.sideDepth bk.asks) /
            (OrderBookAnalyzer.sideDepth bk.bids +
              OrderBookAnalyzer.sideDepth bk.asks) ≤ 1 :=
        (div_le_one ht).mpr (by linarith)
      have h2 : (-1 : ℚ) ≤ (OrderBookAnalyzer.sideDepth bk.bids -
            OrderBookAnalyzer.sideDepth bk.asks) /
            (OrderBookAnalyzer.sideDepth bk.bids +
              OrderBookAnalyzer.sideDepth bk.asks) :=
        (le_div_iff₀ ht).mpr (by linarith)
      constructor
      · calc (-1 : ℚ) = pyRound 3 (-1) := by with_unfolding_all rfl
          _ ≤ _ := pyRound_mono 3 h2
      · calc pyRound 3 _ ≤ pyRound 3 1 := pyRound_mono 3 h1
          _ = 1 := by with_unfolding_all rfl
    · rw [if_neg ht, pyRound_zero]
      norm_num
  · intro bk hb ha ht
    rw [analyze_depth_imbalance_eq bk hb ha]
    rw [if_neg (by rw [ht]; exact lt_irrefl 0), pyRound_zero]
  · rfl
  · intro bk h
    rcases h with h | h <;> simp [OrderBookAnalyzer.analyze_depth, h]

/-- Witness for C7 (amended): the rounding equality, the bounds, the
zero-depth case and the empty-side case, each at a concrete book. -/
theorem c7_analyze_depth_witness :
    (OrderBookAnalyzer.analyze_depth (some ⟨[(1, 1)], [(1, 2)]⟩)).imbalance =
      pyRound 3 (if 0 < OrderBookAnalyzer.sideDepth [(1, 1)] +
            OrderBookAnalyzer.sideDepth [(1, 2)] then
          (OrderBookAnalyzer.sideDepth [(1, 1)] - OrderBookAnalyzer.sideDepth [(1, 2)]) /
            (OrderBookAnalyzer.sideDepth [(1, 1)] + OrderBookAnalyzer.sideDepth [(1, 2)])
        else 0) ∧
    (-1 ≤ (OrderBookAnalyzer.analyze_depth (some ⟨[(1, 1)], [(1, 2)]⟩)).imbalance ∧
      (OrderBookAnalyzer.analyze_depth (some ⟨[(1, 1)], [(1, 2)]⟩)).imbalance ≤ 1) ∧
    (OrderBookAnalyzer.analyze_depth (some ⟨[(1, 0)], [(2, 0)]⟩)).imbalance = 0 ∧
    OrderBookAnalyzer.analyze_depth (some ⟨[], [(1, 2)]⟩) = emptyDepth "Neutral" := by
  refine ⟨?_, ?_, ?_, ?_⟩
  · exact c7_analyze_depth.1 ⟨[(1, 1)], [(1, 2)]⟩ (by decide) (by decide)
  · exact c7_analyze_depth.2.1 ⟨[(1, 1)], [(1, 2)]⟩ (by decide) (by decide)
      (by decide) (by decide)
  · exact c7_analyze_depth.2.2.1 ⟨[(1, 0)], [(2, 0)]⟩ (by decide) (by decide)
      (by with_unfolding_all rfl)
  · exact c7_analyze_depth.2.2.2.2 ⟨[], [(1, 2)]⟩ (Or.inl rfl)

/-- Counterexample to claim C8 as stated: in `wallBook`, sizes 30, 30, 30
and 100 all exceed mean·3 = 28.5, but since the walls list is truncated to
its first three entries in book order, the returned bid walls all have size
30 and the largest flagged wall (size 100) is dropped — the function does
not return the largest flagged walls by size. -/
theorem c8_counterexample_first_not_largest :
    ((OrderBookAnalyzer.wallsFor (wallBook.bids.take 20) 3).map Wall.size).contains 100 = true ∧
    ((OrderBookAnalyzer.detect_walls (some wallBook) 3).1.map Wall.size) = [30, 30, 30] ∧
    (30 : ℚ) < 100 := by
  refine ⟨?_, ?_, ?_⟩
  · with_unfolding_all rfl
  · with_unfolding_all rfl
  · decide

/-- Claim C8 (amended): for every order book and multiplier, `detect_walls`
flags per side exactly the levels among the top 20 whose size exceeds that
side's mean size times the multiplier, each wall carrying price, size and
the size/mean ratio, and returns per side the FIRST at most 3 flagged walls
in book order (not the largest ones, as the counterexample shows). -/
theorem c8_detect_walls :
    (∀ (bk : OrderBook) mult, bk.bids.take 20 ≠ [] → bk.asks.take 20 ≠ [] →
      OrderBookAnalyzer.detect_walls (some bk) mult =
        ((OrderBookAnalyzer.wallsFor (bk.bids.take 20) mult).take 3,
         (OrderBookAnalyzer.wallsFor (bk.asks.take 20) mult).take 3)) ∧
    (∀ (bk : OrderBook) mult,
      (OrderBookAnalyzer.detect_walls (some bk) mult).1.length ≤ 3 ∧
      (OrderBookAnalyzer.detect_walls (some bk) mult).2.length ≤ 3) ∧
    (∀ (levels : List (ℚ × ℚ)) mult,
      (OrderBookAnalyzer.wallsFor levels mult).all
        (fun w => decide (((levels.map (fun l => l.2)).sum /
          ((levels.map (fun l => l.2)).length : ℚ)) * mult < w.size)) = true) ∧
    (∀ (levels : List (ℚ × ℚ)) mult,
      (OrderBookAnalyzer.wallsFor levels mult).all
        (fun w => decide (w.ratio =
          if 0 < (levels.map (fun l => l.2)).sum /
              ((levels.map (fun l => l.2)).length : ℚ) then
            w.size / ((levels.map (fun l => l.2)).sum /
              ((levels.map (fun l => l.2)).length : ℚ))
          else 0)) = true) := by
  refine ⟨?_, ?_, ?_, ?_⟩
  · intro bk mult hb ha
    show (if bk.bids.take 20 = [] ∨ bk.asks.take 20 = [] then ([], []) else _) = _
    rw [if_neg (show ¬(bk.bids.take 20 = [] ∨ bk.asks.take 20 = []) by
      simp [hb, ha])]
  · intro bk mult
    have hred : OrderBookAnalyzer.detect_walls (some bk) mult =
        if bk.bids.take 20 = [] ∨ bk.asks.take 20 = [] then ([], [])
        else ((OrderBookAnalyzer.wallsFor (bk.bids.take 20) mult).take 3,
              (OrderBookAnalyzer.wallsFor (bk.asks.take 20) mult).take 3) := rfl
    rw [hred]
    split_ifs with h
    · simp
    · constructor <;>
        · rw [List.length_take]
          exact min_le_left 3 _
  · intro levels mult
    rw [List.all_eq_true]
    intro w hw
    unfold OrderBookAnalyzer.wallsFor at hw
    obtain ⟨l, hl, rfl⟩ := List.mem_map.mp hw
    have hcond := (List.mem_filter.mp hl).2
    simp only [decide_eq_true_eq] at hcond ⊢
    exact hcond
  · intro levels mult
    rw [List.all_eq_true]
    intro w hw
    unfold OrderBookAnalyzer.wallsFor at hw
    obtain ⟨l, hl, rfl⟩ := List.mem_map.mp hw
    simp only [decide_eq_true_eq]

/-- Witness for C8 (amended): the book-order truncation equation and the
length bound at the concrete wall book. -/
theorem c8_detect_walls_witness :
    OrderBookAnalyzer.detect_walls (some wallBook) 3 =
      ((OrderBookAnalyzer.wallsFor (wallBook.bids.take 20) 3).take 3,
       (OrderBookAnalyzer.wallsFor (wallBook.asks.take 20) 3).take 3) ∧
    ((OrderBookAnalyzer.detect_walls (some wallBook) 3).1.length ≤ 3 ∧
      (OrderBookAnalyzer.detect_walls (some wallBook) 3).2.length ≤ 3) := by
  constructor
  · exact c8_detect_walls.1 wallBook 3 (by decide) (by decide)
  · exact c8_detect_walls.2.1 wallBook 3

/-- Claim C2: each strategy variant's `get_signal` returns the
"unavailable" result `none` (rather than raising) whenever the fetched
candle list is empty or shorter than the variant's minimum — 200 for the
BTC trend-follower, 30 for the ETH mean-reverter, 25 for the SOL scalper. -/
theorem c2_insufficient_candles_give_none :
    (∀ bal tf klines ob, klines.length < 200 →
      BTCStrategy.get_signal bal tf klines ob = none) ∧
    (∀ sqrtQ klines ob, klines.length < 30 →
      ETHStrategy.get_signal sqrtQ klines ob = none) ∧
    (∀ sqrtQ klines ob, klines.length < 25 →
      SOLStrategy.get_signal sqrtQ klines ob = none) := by
  refine ⟨?_, ?_, ?_⟩
  · intro bal tf klines ob h
    unfold BTCStrategy.get_signal
    by_cases hk : klines = []
    · rw [if_pos hk]
    · rw [if_neg hk]
      simp only [List.length_map]
      rw [if_pos h]
  · intro sqrtQ klines ob h
    unfold ETHStrategy.get_signal
    by_cases hk : klines = []
    · rw [if_pos hk]
    · rw [if_neg hk]
      simp only [List.length_map]
      rw [if_pos h]
  · intro sqrtQ klines ob h
    unfold SOLStrategy.get_signal
    by_cases hk : klines = []
    · rw [if_pos hk]
    · rw [if_neg hk]
      simp only [List.length_map]
      rw [if_pos h]

/-- Witness for C2: all three variants applied to the empty candle list and
to a one-candle list. -/
theorem c2_insufficient_candles_give_none_witness :
    BTCStrategy.get_signal 10000 "5min" [] none = none ∧
    ETHStrategy.get_signal (fun q => q) [] none = none ∧
    SOLStrategy.get_signal (fun q => q) [constKline] none = none := by
  refine ⟨?_, ?_, ?_⟩
  · exact c2_insufficient_candles_give_none.1 10000 "5min" [] none (by decide)
  · exact c2_insufficient_candles_give_none.2.1 (fun q => q) [] none (by decide)
  · exact c2_insufficient_candles_give_none.2.2 (fun q => q) [constKline] none
      (by decide)

lemma btc_signalConf_snd_cases (p e50 e200 r a v : ℚ) (piv : Pivots)
    (wh wl imb : ℚ) :
    (BTCStrategy.signalConf p e50 e200 r a v piv wh wl imb).2 = 3/10 ∨
    (BTCStrategy.signalConf p e50 e200 r a v piv wh wl imb).2 = 7/10 ∨
    (BTCStrategy.signalConf p e50 e200 r a v piv wh wl imb).2 = 4/5 := by
  unfold BTCStrategy.signalConf
  split_ifs <;> norm_num

lemma btc_signalConf_hold (p e50 e200 r a v : ℚ) (piv : Pivots)
    (wh wl imb : ℚ)
    (h : (BTCStrategy.signalConf p e50 e200 r a v piv wh wl imb).1 = "HOLD") :
    (BTCStrategy.signalConf p e50 e200 r a v piv wh wl imb).2 = 3/10 := by
  unfold BTCStrategy.signalConf at h ⊢
  split_ifs at h ⊢ <;> first
    | rfl
    | exact absurd h (by decide)

lemma eth_signalConf_snd_cases (p bu bl e20 e50 mh : ℚ) (piv : Pivots) :
    (ETHStrategy.signalConf p bu bl e20 e50 mh piv).2 = 3/10 ∨
    (ETHStrategy.signalConf p bu bl e20 e50 mh piv).2 = 3/4 ∨
    (ETHStrategy.signalConf p bu bl e20 e50 mh piv).2 = 7/10 := by
  unfold ETHStrategy.signalConf
  split_ifs <;> norm_num

lemma eth_signalConf_hold (p bu bl e20 e50 mh : ℚ) (piv : Pivots)
    (h : (ETHStrategy.signalConf p bu bl e20 e50 mh piv).1 = "HOLD") :
    (ETHStrategy.signalConf p bu bl e20 e50 mh piv).2 = 3/10 := by
  unfold ETHStrategy.signalConf at h ⊢
  split_ifs at h ⊢ <;> first
    | rfl
    | exact absurd h (by decide)

lemma sol_signalConf_snd_cases (p e9 e21 k v : ℚ) (ot : String) (piv : Pivots)
    (ph pl vu vl : ℚ) :
    (SOLStrategy.signalConf p e9 e21 k v ot piv ph pl vu vl).2 = 3/10 ∨
    (SOLStrategy.signalConf p e9 e21 k v ot piv ph pl vu vl).2 = 4/5 := by
  unfold SOLStrategy.signalConf
  split_ifs <;> norm_num

lemma sol_signalConf_hold (p e9 e21 k v : ℚ) (ot : String) (piv : Pivots)
    (ph pl vu vl : ℚ)
    (h : (SOLStrategy.signalConf p e9 e21 k v ot piv ph pl vu vl).1 = "HOLD") :
    (SOLStrategy.signalConf p e9 e21 k v ot piv ph pl vu vl).2 = 3/10 := by
  unfold SOLStrategy.signalConf at h ⊢
  split_ifs at h ⊢ <;> first
    | rfl
    | exact absurd h (by decide)

lemma obConfirm_cases (sc : String × ℚ) (imb thr inc : ℚ) :
    ETHStrategy.obConfirm sc imb thr inc = sc.2 ∨
    ETHStrategy.obConfirm sc imb thr inc = sc.2 + inc := by
  unfold ETHStrategy.obConfirm
  split_ifs <;> simp

lemma obConfirm_hold (sc : String × ℚ) (imb thr inc : ℚ) (h : sc.1 = "HOLD") :
    ETHStrategy.obConfirm sc imb thr inc = sc.2 := by
  unfold ETHStrategy.obConfirm
  rw [if_neg, if_neg]
  · intro hc
    rw [h] at hc
    exact absurd hc.1 (by decide)
  · intro hc
    rw [h] at hc
    exact absurd hc.1 (by decide)

lemma btc_signalConf_snd_lb (p e50 e200 r a v : ℚ) (piv : Pivots)
    (wh wl imb : ℚ) :
    3/10 ≤ (BTCStrategy.signalConf p e50 e200 r a v piv wh wl imb).2 := by
  unfold BTCStrategy.signalConf
  split_ifs <;> norm_num

lemma eth_signalConf_snd_lb (p bu bl e20 e50 mh : ℚ) (piv : Pivots) :
    3/10 ≤ (ETHStrategy.signalConf p bu bl e20 e50 mh piv).2 := by
  unfold ETHStrategy.signalConf
  split_ifs <;> norm_num

lemma sol_signalConf_snd_lb (p e9 e21 k v : ℚ) (ot : String) (piv : Pivots)
    (ph pl vu vl : ℚ) :
    3/10 ≤ (SOLStrategy.signalConf p e9 e21 k v ot piv ph pl vu vl).2 := by
  unfold SOLStrategy.signalConf
  split_ifs <;> norm_num

lemma obConfirm_lb (sc : String × ℚ) (imb thr inc : ℚ) (h2 : 0 ≤ sc.2)
    (hinc : 0 ≤ inc) : 0 ≤ ETHStrategy.obConfirm sc imb thr inc := by
  rcases obConfirm_cases sc imb thr inc with h | h <;> rw [h] <;> linarith

/-- Claim C9: every signal any of the three strategy variants returns has
confidence in [0, 0.95] — the 0.95 cap being applied after all fixed
increments (which for the SOL scalper can otherwise reach 1.0) — and a
HOLD signal always has confidence exactly 0.3. -/
theorem c9_confidence_bounds :
    (∀ bal tf klines ob sig, BTCStrategy.get_signal bal tf klines ob = some sig →
      (0 ≤ sig.confidence ∧ sig.confidence ≤ 19/20) ∧
      (sig.side = "HOLD" → sig.confidence = 3/10)) ∧
    (∀ sqrtQ klines ob sig, ETHStrategy.get_signal sqrtQ klines ob = some sig →
      (0 ≤ sig.confidence ∧ sig.confidence ≤ 19/20) ∧
      (sig.side = "HOLD" → sig.confidence = 3/10)) ∧
    (∀ sqrtQ klines ob sig, SOLStrategy.get_signal sqrtQ klines ob = some sig →
      (0 ≤ sig.confidence ∧ sig.confidence ≤ 19/20) ∧
      (sig.side = "HOLD" → sig.confidence = 3/10)) := by
  refine ⟨?_, ?_, ?_⟩
  · intro bal tf klines ob sig h
    unfold BTCStrategy.get_signal at h
    by_cases hk : klines = []
    · rw [if_pos hk] at h
      exact Option.noConfusion h
    · rw [if_neg hk] at h
      simp only [] at h
      by_cases hl : (klines.map Kline.close).length < 200
      · rw [if_pos hl] at h
        exact Option.noConfusion h
      · rw [if_neg hl] at h
        injection h with hsig
        subst hsig
        dsimp only
        refine ⟨⟨le_min ?_ (by norm_num), min_le_right _ _⟩, ?_⟩
        · exact le_trans (by norm_num) (btc_signalConf_snd_lb _ _ _ _ _ _ _ _ _ _)
        · intro hside
          rw [btc_signalConf_hold _ _ _ _ _ _ _ _ _ _ hside,
            min_eq_left (by norm_num)]
  · intro sqrtQ klines ob sig h
    unfold ETHStrategy.get_signal at h
    by_cases hk : klines = []
    · rw [if_pos hk] at h
      exact Option.noConfusion h
    · rw [if_neg hk] at h
      simp only [] at h
      by_cases hl : (klines.map Kline.close).length < 30
      · rw [if_pos hl] at h
        exact Option.noConfusion h
      · rw [if_neg hl] at h
        injection h with hsig
        subst hsig
        dsimp only
        refine ⟨⟨le_min ?_ (by norm_num), min_le_right _ _⟩, ?_⟩
        · exact obConfirm_lb _ _ _ _
            (le_trans (by norm_num) (eth_signalConf_snd_lb _ _ _ _ _ _ _))
            (by norm_num)
        · intro hside
          rw [obConfirm_hold _ _ _ _ hside, eth_signalConf_hold _ _ _ _ _ _ _ hside,
            min_eq_left (by norm_num)]
  · intro sqrtQ klines ob sig h
    unfold SOLStrategy.get_signal at h
    by_cases hk : klines = []
    · rw [if_pos hk] at h
      exact Option.noConfusion h
    · rw [if_neg hk] at h
      simp only [] at h
      by_cases hl : (klines.map Kline.close).length < 25
      · rw [if_pos hl] at h
        exact Option.noConfusion h
      · rw [if_neg hl] at h
        injection h with hsig
        subst hsig
        dsimp only
        refine ⟨⟨le_min ?_ (by norm_num), min_le_right _ _⟩, ?_⟩
        · exact obConfirm_lb _ _ _ _
            (le_trans (by norm_num) (sol_signalConf_snd_lb _ _ _ _ _ _ _ _ _ _ _))
            (by norm_num)
        · intro hside
          rw [obConfirm_hold _ _ _ _ hside,
            sol_signalConf_hold _ _ _ _ _ _ _ _ _ _ _ hside,
            min_eq_left (by norm_num)]

set_option maxRecDepth 40000 in
theorem c9_confidence_bounds_witness :
    ((0 ≤ ((BTCStrategy.get_signal 10000 "5min" (List.replicate 200 constKline)
          none).getD btcNoSignal).confidence ∧
      ((BTCStrategy.get_signal 10000 "5min" (List.replicate 200 constKline)
          none).getD btcNoSignal).confidence ≤ 19/20) ∧
     (((BTCStrategy.get_signal 10000 "5min" (List.replicate 200 constKline)
          none).getD btcNoSignal).side = "HOLD" →
      ((BTCStrategy.get_signal 10000 "5min" (List.replicate 200 constKline)
          none).getD btcNoSignal).confidence = 3/10)) ∧
    ((0 ≤ ((ETHStrategy.get_signal (fun q => q) (List.replicate 30 constKline)
          none).getD ethNoSignal).confidence ∧
      ((ETHStrategy.get_signal (fun q => q) (List.replicate 30 constKline)
          none).getD ethNoSignal).confidence ≤ 19/20) ∧
     (((ETHStrategy.get_signal (fun q => q) (List.replicate 30 constKline)
          none).getD ethNoSignal).side = "HOLD" →
      ((ETHStrategy.get_signal (fun q => q) (List.replicate 30 constKline)
          none).getD ethNoSignal).confidence = 3/10)) ∧
    ((0 ≤ ((SOLStrategy.get_signal (fun q => q) (List.replicate 25 constKline)
          none).getD solNoSignal).confidence ∧
      ((SOLStrategy.get_signal (fun q => q) (List.replicate 25 constKline)
          none).getD solNoSignal).confidence ≤ 19/20) ∧
     (((SOLStrategy.get_signal (fun q => q) (List.replicate 25 constKline)
          none).getD solNoSignal).side = "HOLD" →
      ((SOLStrategy.get_signal (fun q => q) (List.replicate 25 constKline)
          none).getD solNoSignal).confidence = 3/10)) := by
  refine ⟨?_, ?_, ?_⟩
  · exact c9_confidence_bounds.1 10000 "5min" (List.replicate 200 constKline)
      none _ (by with_unfolding_all rfl)
  · exact c9_confidence_bounds.2.1 (fun q => q) (List.replicate 30 constKline)
      none _ (by with_unfolding_all rfl)
  · exact c9_confidence_bounds.2.2 (fun q => q) (List.replicate 25 constKline)
      none _ (by with_unfolding_all rfl)

lemma btc_stopTp_hold (p a : ℚ) (piv : Pivots) :
    BTCStrategy.stopTp "HOLD" p a piv = (p * (98/100), p * (102/100)) := by
  unfold BTCStrategy.stopTp
  rw [if_neg (by decide), if_neg (by decide)]

lemma eth_stopTp_hold (p bl bu bm ae : ℚ) :
    ETHStrategy.stopTp "HOLD" p bl bu bm ae = (p * (98/100), p * (102/100)) := by
  unfold ETHStrategy.stopTp
  rw [if_neg (by decide), if_neg (by decide)]

lemma sol_stopTp_hold (p : ℚ) :
    SOLStrategy.stopTp "HOLD" p = (p * (99/100), p * (101/100)) := by
  unfold SOLStrategy.stopTp
  rw [if_neg (by decide), if_neg (by decide)]

/-- Claim C10: a HOLD signal still carries concrete stop-loss and
take-profit prices at fixed percentage offsets of the entry price — 2%
each side of the entry for the BTC trend-follower and the ETH
mean-reverter, 1% each side for the SOL scalper — applied to the current
close before the 2- resp. 3-decimal display rounding of the returned
fields. -/
theorem c10_hold_stop_take_offsets :
    (∀ p a piv, BTCStrategy.stopTp "HOLD" p a piv =
      (p * (98/100), p * (102/100))) ∧
    (∀ p bl bu bm ae, ETHStrategy.stopTp "HOLD" p bl bu bm ae =
      (p * (98/100), p * (102/100))) ∧
    (∀ p, SOLStrategy.stopTp "HOLD" p = (p * (99/100), p * (101/100))) ∧
    (∀ bal tf klines ob sig, BTCStrategy.get_signal bal tf klines ob = some sig →
      sig.side = "HOLD" →
      sig.entry = pyRound 2 (lastD (klines.map Kline.close)) ∧
      sig.stop_loss = pyRound 2 (lastD (klines.map Kline.close) * (98/100)) ∧
      sig.take_profit = pyRound 2 (lastD (klines.map Kline.close) * (102/100))) ∧
    (∀ sqrtQ klines ob sig, ETHStrategy.get_signal sqrtQ klines ob = some sig →
      sig.side = "HOLD" →
      sig.entry = pyRound 2 (lastD (klines.map Kline.close)) ∧
      sig.stop_loss = pyRound 2 (lastD (klines.map Kline.close) * (98/100)) ∧
      sig.take_profit = pyRound 2 (lastD (klines.map Kline.close) * (102/100))) ∧
    (∀ sqrtQ klines ob sig, SOLStrategy.get_signal sqrtQ klines ob = some sig →
      sig.side = "HOLD" →
      sig.entry = pyRound 3 (lastD (klines.map Kline.close)) ∧
      sig.stop_loss = pyRound 3 (lastD (klines.map Kline.close) * (99/100)) ∧
      sig.take_profit = pyRound 3 (lastD (klines.map Kline.close) * (101/100))) := by
  refine ⟨btc_stopTp_hold, eth_stopTp_hold, sol_stopTp_hold, ?_, ?_, ?_⟩
  · intro bal tf klines ob sig h
    unfold BTCStrategy.get_signal at h
    by_cases hk : klines = []
    · rw [if_pos hk] at h
      exact Option.noConfusion h
    · rw [if_neg hk] at h
      simp only [] at h
      by_cases hl : (klines.map Kline.close).length < 200
      · rw [if_pos hl] at h
        exact Option.noConfusion h
      · rw [if_neg hl] at h
        injection h with hsig
        subst hsig
        dsimp only
        intro hside
        rw [hside, btc_stopTp_hold]
        exact ⟨rfl, rfl, rfl⟩
  · intro sqrtQ klines ob sig h
    unfold ETHStrategy.get_signal at h
    by_cases hk : klines = []
    · rw [if_pos hk] at h
      exact Option.noConfusion h
    · rw [if_neg hk] at h
      simp only [] at h
      by_cases hl : (klines.map Kline.close).length < 30
      · rw [if_pos hl] at h
        exact Option.noConfusion h
      · rw [if_neg hl] at h
        injection h with hsig
        subst hsig
        dsimp only
        intro hside
        rw [hside, eth_stopTp_hold]
        exact ⟨rfl, rfl, rfl⟩
  · intro sqrtQ klines ob sig h
    unfold SOLStrategy.get_signal at h
    by_cases hk : klines = []
    · rw [if_pos hk] at h
      exact Option.noConfusion h
    · rw [if_neg hk] at h
      simp only [] at h
      by_cases hl : (klines.map Kline.close).length < 25
      · rw [if_pos hl] at h
        exact Option.noConfusion h
      · rw [if_neg hl] at h
        injection h with hsig
        subst hsig
        dsimp only
        intro hside
        rw [hside, sol_stopTp_hold]
        exact ⟨rfl, rfl, rfl⟩

set_option maxRecDepth 40000 in
/-- Witness for C10: the hypothesis-bearing pipeline conjuncts applied to
concrete constant-candle HOLD runs of all three variants. -/
theorem c10_hold_stop_take_offsets_witness :
    (((BTCStrategy.get_signal 10000 "5min" (List.replicate 200 constKline)
          none).getD btcNoSignal).entry =
        pyRound 2 (lastD ((List.replicate 200 constKline).map Kline.close)) ∧
      ((BTCStrategy.get_signal 10000 "5min" (List.replicate 200 constKline)
          none).getD btcNoSignal).stop_loss =
        pyRound 2 (lastD ((List.replicate 200 constKline).map Kline.close) * (98/100)) ∧
      ((BTCStrategy.get_signal 10000 "5min" (List.replicate 200 constKline)
          none).getD btcNoSignal).take_profit =
        pyRound 2 (lastD ((List.replicate 200 constKline).map Kline.close) * (102/100))) ∧
    (((ETHStrategy.get_signal (fun q => q) (List.replicate 30 constKline)
          none).getD ethNoSignal).entry =
        pyRound 2 (lastD ((List.replicate 30 constKline).map Kline.close)) ∧
      ((ETHStrategy.get_signal (fun q => q) (List.replicate 30 constKline)
          none).getD ethNoSignal).stop_loss =
        pyRound 2 (lastD ((List.replicate 30 constKline).map Kline.close) * (98/100)) ∧
      ((ETHStrategy.get_signal (fun q => q) (List.replicate 30 constKline)
          none).getD ethNoSignal).take_profit =
        pyRound 2 (lastD ((List.replicate 30 constKline).map Kline.close) * (102/100))) ∧
    (((SOLStrategy.get_signal (fun q => q) (List.replicate 25 constKline)
          none).getD solNoSignal).entry =
        pyRound 3 (lastD ((List.replicate 25 constKline).map Kline.close)) ∧
      ((SOLStrategy.get_signal (fun q => q) (List.replicate 25 constKline)
          none).getD solNoSignal).stop_loss =
        pyRound 3 (lastD ((List.replicate 25 constKline).map Kline.close) * (99/100)) ∧
      ((SOLStrategy.get_signal (fun q => q) (List.replicate 25 constKline)
          none).getD solNoSignal).take_profit =
        pyRound 3 (lastD ((List.replicate 25 constKline).map Kline.close) * (101/100))) := by
  refine ⟨?_, ?_, ?_⟩
  · exact c10_hold_stop_take_offsets.2.2.2.1 10000 "5min"
      (List.replicate 200 constKline) none _ (by with_unfolding_all rfl)
      (by with_unfolding_all rfl)
  · exact c10_hold_stop_take_offsets.2.2.2.2.1 (fun q => q)
      (List.replicate 30 constKline) none _ (by with_unfolding_all rfl)
      (by with_unfolding_all rfl)
  · exact c10_hold_stop_take_offsets.2.2.2.2.2 (fun q => q)
      (List.replicate 25 constKline) none _ (by with_unfolding_all rfl)
      (by with_unfolding_all rfl)
